import Mathlib

/-!
Shallow embedding of the rig remote-connection library (connection.go, ssh.go,
winrm.go) together with proofs about its documented behavior.  Effectful Go
code is modelled by passing explicit environment records that fix the outcome
of each external step (network, filesystem, process environment); pure helper
functions are translated directly.
-/

namespace Rig

/-- Decidable equality for Except values, needed to evaluate the embedded
fallible functions on concrete inputs. -/
instance {ε α : Type} [DecidableEq ε] [DecidableEq α] : DecidableEq (Except ε α) := fun a b =>
  match a, b with
  | .ok x, .ok y => decidable_of_iff (x = y) (by simp)
  | .ok _, .error _ => .isFalse (by simp)
  | .error _, .ok _ => .isFalse (by simp)
  | .error x, .error y => decidable_of_iff (x = y) (by simp)

/-- Character membership in a string, evaluated over the character list so
that concrete instances reduce in the kernel; Bool-valued like Go's
strings.Contains with a single-character needle. -/
def containsChar (s : String) (c : Char) : Bool :=
  s.data.any fun d => d = c

/-- Error kinds of the errstring-based typed errors used throughout the library
(ErrValidationFailed, ErrOS, ErrInvalidPath, ErrNotImplemented, ErrCantConnect,
ErrAuthFailed, ErrNotConnected, ErrCommandFailed, ErrUploadFailed,
ErrChecksumMismatch, ErrSudoRequired). -/
inductive ErrKind where
  | validationFailed
  | osError
  | invalidPath
  | notImplemented
  | cantConnect
  | authFailed
  | notConnected
  | commandFailed
  | uploadFailed
  | checksumMismatch
  | sudoRequired
deriving DecidableEq, Repr

/-- A Go error value as the library distinguishes them: either a typed
errstring error (possibly produced by Wrapf on one of the Err* values, keeping
that value's kind at the head of the chain) or a plain fmt.Errorf error. -/
inductive RigError where
  | typed (kind : ErrKind) (msg : String)
  | generic (msg : String)
deriving DecidableEq, Repr

/-- Kind of the head of an error chain; generic fmt.Errorf errors have no kind. -/
def RigError.kind? : RigError → Option ErrKind
  | .typed k _ => some k
  | .generic _ => none

/-- ErrChecksumMismatch as declared in ssh.go: a dedicated typed error whose
doc comment says it is returned when the checksum of an uploaded file does not
match expectation. -/
def ErrChecksumMismatch : RigError := .typed .checksumMismatch "checksum mismatch"

/-! ## google/shlex lexical splitting (dependency of sudoSudo and hostkeyCallback) -/

/-- Rune classes of the google/shlex tokenizer. -/
inductive RuneClass where
  | space
  | escapingQuote
  | nonEscapingQuote
  | escapeClass
  | commentClass
  | other
deriving DecidableEq, Repr

/-- Classify a character exactly as google/shlex does: spaces " \t\r\n",
escaping quote `"`, non-escaping quote `'`, escape `\`, comment `#`. -/
def classOfRune (c : Char) : RuneClass :=
  if c = ' ' ∨ c = '\t' ∨ c = '\r' ∨ c = '\n' then .space
  else if c = '"' then .escapingQuote
  else if c = '\x27' then .nonEscapingQuote
  else if c = '\\' then .escapeClass
  else if c = '#' then .commentClass
  else .other

/-- Lexer states of the google/shlex tokenizer. -/
inductive ShlexState where
  | start
  | inWord
  | escaping
  | escapingQuoted
  | quotingEscaping
  | quoting
  | commentState
deriving DecidableEq, Repr

/-- The fused google/shlex scanner: runs the tokenizer over the remaining
input, accumulating the current token value and the list of word tokens
produced so far (comment tokens are skipped, as shlex.Split's lexer does).
Unterminated escapes and quotes produce the tokenizer's errors. -/
def shlexScan : List Char → ShlexState → List Char → List String → Except String (List String)
  | [], .start, _, acc => .ok acc.reverse
  | [], .inWord, value, acc => .ok ((String.mk value :: acc).reverse)
  | [], .escaping, _, _ => .error "EOF found after escape character"
  | [], .escapingQuoted, _, _ => .error "EOF found after escape character"
  | [], .quotingEscaping, _, _ => .error "EOF found when expecting closing quote"
  | [], .quoting, _, _ => .error "EOF found when expecting closing quote"
  | [], .commentState, _, acc => .ok acc.reverse
  | c :: rest, .start, value, acc =>
    match classOfRune c with
    | .space => shlexScan rest .start value acc
    | .escapingQuote => shlexScan rest .quotingEscaping [] acc
    | .nonEscapingQuote => shlexScan rest .quoting [] acc
    | .escapeClass => shlexScan rest .escaping [] acc
    | .commentClass => shlexScan rest .commentState [] acc
    | .other => shlexScan rest .inWord [c] acc
  | c :: rest, .inWord, value, acc =>
    match classOfRune c with
    | .space => shlexScan rest .start [] (String.mk value :: acc)
    | .escapingQuote => shlexScan rest .quotingEscaping value acc
    | .nonEscapingQuote => shlexScan rest .quoting value acc
    | .escapeClass => shlexScan rest .escaping value acc
    | _ => shlexScan rest .inWord (value ++ [c]) acc
  | c :: rest, .escaping, value, acc =>
    shlexScan rest .inWord (value ++ [c]) acc
  | c :: rest, .escapingQuoted, value, acc =>
    shlexScan rest .quotingEscaping (value ++ [c]) acc
  | c :: rest, .quotingEscaping, value, acc =>
    match classOfRune c with
    | .escapingQuote => shlexScan rest .inWord value acc
    | .escapeClass => shlexScan rest .escapingQuoted value acc
    | _ => shlexScan rest .quotingEscaping (value ++ [c]) acc
  | c :: rest, .quoting, value, acc =>
    match classOfRune c with
    | .nonEscapingQuote => shlexScan rest .inWord value acc
    | _ => shlexScan rest .quoting (value ++ [c]) acc
  | c :: rest, .commentState, value, acc =>
    match classOfRune c with
    | .space =>
      if c = '\n' then shlexScan rest .start [] acc
      else shlexScan rest .commentState (value ++ [c]) acc
    | _ => shlexScan rest .commentState (value ++ [c]) acc

/-- shlex.Split: tokenize the whole string into words. -/
def shlexSplit (s : String) : Except String (List String) :=
  shlexScan s.data .start [] []

/-! ## alessio/shellescape Quote (dependency of sudoSudo) -/

/-- Characters NOT matched by shellescape's pattern of unsafe characters:
word characters (Go regexp \w is ASCII [0-9A-Za-z_]) and @ % + = : , . slash
and dash. -/
def shellSafeChar (c : Char) : Bool :=
  c.isAlphanum || c = '_' || c = '@' || c = '%' || c = '+' || c = '=' ||
    c = ':' || c = ',' || c = '.' || c = '/' || c = '-'

/-- shellescape.Quote: empty strings become two single quotes; strings made
only of safe characters are returned unchanged; anything else is wrapped in
single quotes with embedded single quotes replaced. -/
def Quote (s : String) : String :=
  if s.length = 0 then "\x27\x27"
  else if s.data.all shellSafeChar then s
  else "\x27" ++
    String.join (s.data.map fun c =>
      if c = '\x27' then "\x27\"\x27\"\x27" else String.singleton c) ++ "\x27"

/-! ## Sudo command rewriters (connection.go) -/

/-- sudoNoop: the identity rewriter used when already running as root. -/
def sudoNoop (cmd : String) : String := cmd

/-- sudoDoas: prepend the doas invocation. -/
def sudoDoas (cmd : String) : String := "doas -s -- " ++ cmd

/-- sudoWindows: prepend the runas invocation. -/
def sudoWindows (cmd : String) : String := "runas /user:Administrator " ++ cmd

/-- Number of leading parts that contain a "=", exactly as the index loop in
sudoSudo computes it (idx ends up i+1 for the last consecutive leading part
containing "="). -/
def envVarCount : List String → Nat
  | [] => 0
  | p :: rest => if containsChar p '=' then envVarCount rest + 1 else 0

/-- sudoSudo: split the command with shlex, count the leading VAR=value
parts; when splitting fails or there is no environment prefix, prepend a plain
sudo invocation; otherwise quote every part with shellescape.Quote and emit
"sudo -s <vars> -- <cmd>". -/
def sudoSudo (cmd : String) : String :=
  match shlexSplit cmd with
  | .error _ => "sudo -s -- " ++ cmd
  | .ok parts =>
    let idx := envVarCount parts
    if idx = 0 then "sudo -s -- " ++ cmd
    else
      let quoted := parts.map Quote
      "sudo -s " ++ String.intercalate " " (quoted.take idx) ++ " -- " ++
        String.intercalate " " (quoted.drop idx)

/-! ## Process environment, home directory and path expansion (ssh.go) -/

/-- Outcome of the operating-system facilities consulted by the path helpers:
the HOME environment variable, os.UserHomeDir, and os.Stat (none models a
stat error, some b models success with b = FileInfo.IsDir()). -/
structure OSEnv where
  homeEnv : Option String
  osUserHome : Option String
  statIsDir : String → Option Bool

/-- homeDir: prefer the HOME environment variable, fall back to
os.UserHomeDir, wrapping its failure in ErrOS. -/
def homeDir (e : OSEnv) : Except ErrKind String :=
  match e.homeEnv with
  | some home => .ok home
  | none =>
    match e.osUserHome with
    | some home => .ok home
    | none => .error .osError

/-- expandPath: tilde expansion for paths under the current user home.  The
function inspects the first byte of its argument unconditionally, so on the
empty string the Go code panics with an index-out-of-range; that undefined
case is modelled as none.  All non-empty inputs yield some result. -/
def expandPath (e : OSEnv) (path : String) : Option (Except ErrKind String) :=
  match path.data with
  | [] => none
  | c :: rest =>
    if c ≠ '~' then some (.ok path)
    else
      match rest with
      | [] => some (homeDir e)
      | c2 :: _ =>
        if c2 ≠ '/' then some (.error .notImplemented)
        else
          match homeDir e with
          | .error k => some (.error k)
          | .ok home => some (.ok (home ++ String.mk rest))

/-- expandAndValidatePath with Go-style multiple returns: the pair carries
the (possibly empty) path result and the error slot.  Empty input is rejected
as ErrInvalidPath before expandPath is invoked; stat failures and directories
are ErrInvalidPath as well. -/
def expandAndValidatePath (e : OSEnv) (path : String) : String × Option ErrKind :=
  if path.length = 0 then ("", some .invalidPath)
  else
    match expandPath e path with
    | none => ("", some .invalidPath)
    | some (.error k) => ("", some k)
    | some (.ok p) =>
      match e.statIsDir p with
      | none => ("", some .invalidPath)
      | some true => ("", some .invalidPath)
      | some false => (p, none)

/-- initGlobalDefaults: for each IdentityFile path the SSH config reports for
the non-existent probe host, run expandAndValidatePath and append the
returned path to the global set when the error slot is non-nil, exactly as
the Go loop is written. -/
def initGlobalDefaults (e : OSEnv) (dummyHostIdentityFiles : List String) : List String :=
  dummyHostIdentityFiles.foldl
    (fun acc keyPath =>
      let r := expandAndValidatePath e keyPath
      if r.2.isSome then acc ++ [r.1] else acc)
    []

/-! ## Host-key verification policy (ssh.go hostkeyCallback) -/

/-- The host-key verification callbacks the policy can select. -/
inductive HostKeyCallback where
  | staticKey (key : String)
  | insecureIgnore
  | knownHostsFile (path : String) (permissive : Bool)
deriving DecidableEq, Repr

/-- Modelled from the spec: hostkey.DefaultKnownHostsPath of the
pkg/ssh/hostkey package (not among the sources), the default user known-hosts
file location. -/
def DefaultKnownHostsPath : String := "~/.ssh/known_hosts"

/-- Modelled from the spec: hostkey.KnownHostsFileCallback of the
pkg/ssh/hostkey package (not among the sources) builds a known-hosts-file
callback for the given path and permissive flag; construction failures of the
underlying library are not modelled, so the wrapper always succeeds. -/
def knownhostsCallback (path : String) (permissive : Bool) : Except ErrKind HostKeyCallback :=
  .ok (.knownHostsFile path permissive)

/-- Configuration inputs of hostkeyCallback: the literal hostKey field, the
StrictHostkeyChecking values from SSH config, the SSH_KNOWN_HOSTS variable
(none when unset, modelling hostkey.KnownHostsPathFromEnv per the spec), and
the UserKnownHostsFile values from SSH config. -/
structure HostKeyEnv where
  hostKey : String
  strictHostKeyChecking : List String
  sshKnownHostsEnv : Option String
  userKnownHostsFiles : List String

/-- Permissive mode is enabled when the first StrictHostkeyChecking value is
exactly "no". -/
def permissiveMode : List String → Bool
  | s :: _ => s = "no"
  | [] => false

/-- The loop over the split UserKnownHostsFile entries: take the first entry
whose expansion succeeds (breaking even when the expanded value is empty).
The outer none models the index panic expandPath makes on an empty token;
some none means no entry expanded. -/
def firstExpandedPath (e : OSEnv) : List String → Option (Option String)
  | [] => some none
  | f :: rest =>
    match expandPath e f with
    | none => none
    | some (.ok p) => some (some p)
    | some (.error _) => firstExpandedPath e rest

/-- The final branch of hostkeyCallback: expand the default known-hosts path
and build a callback against it. -/
def hostkeyDefaultBranch (e : OSEnv) (permissive : Bool) :
    Option (Except ErrKind HostKeyCallback) :=
  match expandPath e DefaultKnownHostsPath with
  | none => none
  | some (.error k) => some (.error k)
  | some (.ok p) => some (knownhostsCallback p permissive)

/-- hostkeyCallback: a literal hostKey wins; otherwise the SSH_KNOWN_HOSTS
variable (empty value selects the insecure-ignore callback, non-empty value a
known-hosts-file callback on that path); otherwise the first expandable entry
of the shlex-split UserKnownHostsFile values; otherwise the expanded default
known-hosts path.  The outer none models a panic inside the entry loop. -/
def hostkeyCallback (e : OSEnv) (c : HostKeyEnv) : Option (Except ErrKind HostKeyCallback) :=
  if c.hostKey ≠ "" then some (.ok (.staticKey c.hostKey))
  else
    let permissive := permissiveMode c.strictHostKeyChecking
    match c.sshKnownHostsEnv with
    | some path =>
      if path = "" then some (.ok .insecureIgnore)
      else some (knownhostsCallback path permissive)
    | none =>
      match shlexSplit (String.intercalate " " c.userKnownHostsFiles) with
      | .error _ => hostkeyDefaultBranch e permissive
      | .ok files =>
        match firstExpandedPath e files with
        | none => none
        | some (some p) =>
          if p ≠ "" then some (knownhostsCallback p permissive)
          else hostkeyDefaultBranch e permissive
        | some none => hostkeyDefaultBranch e permissive

/-! ## SSH command execution (ssh.go Exec) -/

/-- Outcomes of the external steps SSH.Exec performs, in program order:
whether the host OS is known and is Windows, whether NewSession succeeds,
whether the option-driven command rewrite succeeds, whether RequestPty
succeeds, whether Start succeeds, whether writing the stdin payload succeeds,
whether session.Wait returns nil (exit status zero), and whether the stderr
scanner observed at least one line or a scan error (gotErrors). -/
structure SSHExecEnv where
  knowOs : Bool
  isWindows : Bool
  newSessionOk : Bool
  buildOk : Bool
  ptyOk : Bool
  startOk : Bool
  stdinWriteOk : Bool
  waitOk : Bool
  gotStderr : Bool
deriving DecidableEq, Repr

/-- A PTY request as issued on the session: terminal name, width, height and
the value of the ECHO terminal mode. -/
structure PtyRequest where
  term : String
  width : Nat
  height : Nat
  echo : Nat
deriving DecidableEq, Repr

/-- The observable outcome of one SSH.Exec call: the PTY request made on the
session, if any, and the returned error, if any. -/
structure SSHExecTrace where
  pty : Option PtyRequest
  result : Option RigError
deriving DecidableEq, Repr

/-- ptyWidth and ptyHeight constants of ssh.go. -/
def ptyWidth : Nat := 80

/-- ptyHeight constant of ssh.go. -/
def ptyHeight : Nat := 40

/-- SSH.Exec: open a session, rewrite the command; when the stdin payload is
empty and the OS is known not to be Windows, request an xterm PTY of
ptyWidth by ptyHeight with ECHO set to 0; start the command, write and close
stdin, pump stdout and stderr, wait; a non-nil wait result is returned as a
plain wrapped error; on a clean exit, a known Windows host with stderr
output fails with ErrCommandFailed unless AllowWinStderr is set. -/
def sshExec (env : SSHExecEnv) (stdin : String) (allowWinStderr : Bool) : SSHExecTrace :=
  if !env.newSessionOk then ⟨none, some (.generic "ssh new session")⟩
  else if !env.buildOk then ⟨none, some (.generic "build command")⟩
  else
    let wantPty := stdin = "" && env.knowOs && !env.isWindows
    let pty := if wantPty then some (⟨"xterm", ptyWidth, ptyHeight, 0⟩ : PtyRequest) else none
    if wantPty && !env.ptyOk then ⟨pty, some (.generic "request pty")⟩
    else if !env.startOk then ⟨pty, some (.generic "ssh session start")⟩
    else if stdin ≠ "" && !env.stdinWriteOk then ⟨pty, some (.generic "write stdin")⟩
    else if !env.waitOk then ⟨pty, some (.generic "ssh session wait")⟩
    else if env.knowOs && env.isWindows && (!allowWinStderr && env.gotStderr) then
      ⟨pty, some (.typed .commandFailed "data in stderr")⟩
    else ⟨pty, none⟩

/-! ## WinRM command execution (winrm.go) -/

/-- Outcomes of the external steps WinRM.Exec performs: shell creation,
command start, the exit code the protocol reports after Wait, and whether the
stderr scanner observed output (gotErrors). -/
structure WinRMExecEnv where
  createShellOk : Bool
  executeOk : Bool
  exitCode : Int
  gotStderr : Bool
deriving DecidableEq, Repr

/-- WinRM.Exec: create a shell, start the command, pump the streams and wait;
an exit code strictly greater than zero yields ErrCommandFailed, and
otherwise stderr output yields ErrCommandFailed unless AllowWinStderr is
set. -/
def winrmExec (env : WinRMExecEnv) (allowWinStderr : Bool) : Option RigError :=
  if !env.createShellOk then some (.generic "create shell")
  else if !env.executeOk then some (.generic "execute command")
  else if env.exitCode > 0 then some (.typed .commandFailed "non-zero exit code")
  else if !allowWinStderr && env.gotStderr then some (.typed .commandFailed "received data in stderr")
  else none

/-- Command.Wait of the Waiter returned by WinRM.ExecStreams: after the
pumps, any non-zero exit code yields ErrCommandFailed. -/
def commandWait (exitCode : Int) : Option RigError :=
  if exitCode ≠ 0 then some (.typed .commandFailed "exit code") else none

/-- The transport decorators a WinRM connection can install. -/
inductive Transporter where
  | defaultTransport
  | clientNTLM
  | clientAuthRequest
deriving DecidableEq, Repr

/-- The WinRM configuration fields feeding the transport-decorator choice:
the useNTLM and useHTTPS flags and the client certificate bytes loaded from
CertPath (empty when no certificate is configured). -/
structure WinRMSpec where
  useNTLM : Bool
  useHTTPS : Bool
  cert : List Nat
deriving DecidableEq, Repr

/-- The transport-decorator selection of WinRM.Connect: the params start with
the default transport; the NTLM decorator is assigned when useNTLM is set;
afterwards the client-certificate decorator is assigned when HTTPS is on and
a client certificate is present, overwriting any earlier assignment. -/
def transportDecorator (c : WinRMSpec) : Transporter :=
  let d : Transporter := .defaultTransport
  let d := if c.useNTLM then .clientNTLM else d
  let d := if c.useHTTPS && c.cert.length > 0 then .clientAuthRequest else d
  d

/-! ## The Connection dispatcher (connection.go) -/

/-- OS descriptor as far as the dispatcher needs it. -/
structure OSVersionInfo where
  id : String
deriving DecidableEq, Repr

/-- Connection state relevant to Connect and IsConnected: the client handle
(some b with b the value the underlying client's IsConnected reports, none
when the handle is cleared) and the cached OS descriptor. -/
structure ConnState where
  client : Option Bool
  osVersion : Option OSVersionInfo
deriving DecidableEq, Repr

/-- Outcomes of the external steps Connection.Connect performs: defaults.Set,
the transport-level client.Connect, and the OS-version probe. -/
structure ConnectEnv where
  defaultsOk : Bool
  clientConnectOk : Bool
  osProbe : Except ErrKind OSVersionInfo
deriving DecidableEq, Repr

/-- Connection.IsConnected: false without a client handle, otherwise
whatever the underlying client reports. -/
def connIsConnected (s : ConnState) : Bool :=
  match s.client with
  | none => false
  | some b => b

/-- Connection.Connect: populate the client via defaults.Set when absent;
run the transport-level connect, clearing the handle and returning
ErrNotConnected on failure; then, when no OS descriptor is cached, run the
OS-version probe, returning its error as-is (the handle is not cleared on
this path); sudo configuration does not touch the handle and is omitted. -/
def connConnect (env : ConnectEnv) (s : ConnState) : ConnState × Option ErrKind :=
  let s1 :=
    match s.client with
    | none => if env.defaultsOk then { s with client := some false } else s
    | some _ => s
  if s1.client.isNone then (s1, some .validationFailed)
  else if !env.clientConnectOk then ({ s1 with client := none }, some .notConnected)
  else
    let s2 := { s1 with client := some true }
    match s2.osVersion with
    | none =>
      match env.osProbe with
      | .error k => (s2, some k)
      | .ok o => ({ s2 with osVersion := some o }, none)
    | some _ => (s2, none)

/-- Connection.Exec: fail with ErrNotConnected when not connected, wrap any
client error in ErrCommandFailed, otherwise nil. -/
def connExec (connected : Bool) (clientResult : Option RigError) : Option RigError :=
  if !connected then some (.typed .notConnected "not connected")
  else
    match clientResult with
    | some _ => some (.typed .commandFailed "client exec")
    | none => none

/-- Outcomes of the steps Connection.Upload performs: the connectivity check,
opening and stat-ing the local file, opening the remote file, the copy
through the local SHA-256 hasher, the hex digest that hasher accumulated for
the streamed bytes, and the remote filesystem's Sha256 answer for the
destination. -/
structure UploadEnv where
  connected : Bool
  openLocalOk : Bool
  statLocalOk : Bool
  openRemoteOk : Bool
  copyOk : Bool
  localDigest : String
  remoteSha256 : Except ErrKind String
deriving DecidableEq, Repr

/-- Connection.Upload: connectivity and local-file failures are ErrNotConnected
and ErrInvalidPath; remote open failures are ErrInvalidPath; copy and remote
checksum-query failures are ErrUploadFailed; a digest mismatch returns
ErrUploadFailed wrapped with the message "checksum mismatch"; matching
digests return nil. -/
def Upload (env : UploadEnv) : Option RigError :=
  if !env.connected then some (.typed .notConnected "not connected")
  else if !env.openLocalOk then some (.typed .invalidPath "open local")
  else if !env.statLocalOk then some (.typed .invalidPath "stat local file")
  else if !env.openRemoteOk then some (.typed .invalidPath "open remote file for writing")
  else if !env.copyOk then some (.typed .uploadFailed "copy file to remote host")
  else
    match env.remoteSha256 with
    | .error _ => some (.typed .uploadFailed "validate checksum")
    | .ok remoteSum =>
      if remoteSum ≠ env.localDigest then some (.typed .uploadFailed "checksum mismatch")
      else none

/-! ## Concrete evaluation environments -/

/-- A concrete OS environment: HOME is /home/u and exactly one regular file
/home/u/.ssh/id_ok exists. -/
def osEnvW : OSEnv :=
  { homeEnv := some "/home/u"
    osUserHome := none
    statIsDir := fun p => if p = "/home/u/.ssh/id_ok" then some false else none }

/-- A concrete upload run in which every transfer step succeeds but the
remote filesystem reports digest bb while the local hasher accumulated aa. -/
def uploadMismatchEnv : UploadEnv :=
  { connected := true, openLocalOk := true, statLocalOk := true, openRemoteOk := true
    copyOk := true, localDigest := "aa", remoteSha256 := .ok "bb" }

/-- A concrete Connect run: defaults succeed, the transport-level connect
succeeds, and the OS-version probe fails. -/
def connectProbeFailEnv : ConnectEnv :=
  { defaultsOk := true, clientConnectOk := true, osProbe := .error .osError }

/-- A host-key configuration whose UserKnownHostsFile value is a pair of
single quotes, which shlex splits into one empty token. -/
def emptyTokenHostKeyEnv : HostKeyEnv :=
  { hostKey := "", strictHostKeyChecking := [], sshKnownHostsEnv := none
    userKnownHostsFiles := ["\x27\x27"] }

/-! ## Theorems -/

/-- C1, counterexample: sudoSudo on "A=1 B=2 cmd arg" yields
"sudo -s A=1 B=2 -- cmd arg" because shellescape.Quote leaves tokens made of
safe characters unquoted, so the claimed value with quoted cmd and arg is
wrong. -/
theorem sudoSudo_example_counterexample :
    sudoSudo "A=1 B=2 cmd arg" = "sudo -s A=1 B=2 -- cmd arg" ∧
    sudoSudo "A=1 B=2 cmd arg" ≠ "sudo -s A=1 B=2 -- \x27cmd\x27 \x27arg\x27" := by
  decide

/-- C1, amended: sudoSudo splits the command lexically, keeps the leading
VAR=value prefix as environment passed to sudo, shell-escapes each token
(quoting only tokens with characters outside the safe set), and emits
"sudo -s <vars> -- <cmd>"; in particular sudoSudo("A=1 B=2 cmd arg") equals
"sudo -s A=1 B=2 -- cmd arg" and a token with a space does get quoted. -/
theorem sudoSudo_env_prefix_amended :
    sudoSudo "A=1 B=2 cmd arg" = "sudo -s A=1 B=2 -- cmd arg" ∧
    sudoSudo "A=1 cp x \x27a b\x27" = "sudo -s A=1 -- cp x \x27a b\x27" ∧
    (∀ cmd parts, shlexSplit cmd = .ok parts → 0 < envVarCount parts →
      sudoSudo cmd =
        "sudo -s " ++
          String.intercalate " " ((parts.map Quote).take (envVarCount parts)) ++
          " -- " ++
          String.intercalate " " ((parts.map Quote).drop (envVarCount parts))) := by
  refine ⟨by decide, by decide, ?_⟩
  intro cmd parts h hpos
  unfold sudoSudo
  rw [h]
  simp only [Nat.pos_iff_ne_zero] at hpos
  simp [hpos]

/-- C1, witness for the amended theorem: applying the general clause at a
concrete command. -/
theorem sudoSudo_env_prefix_amended_witness :
    sudoSudo "E=2 true" = "sudo -s E=2 -- true" := by
  have h := sudoSudo_env_prefix_amended.2.2 "E=2 true" ["E=2", "true"] (by decide) (by decide)
  exact h.trans (by decide)

/-- C4, code bug: when every transfer step succeeds but the remote digest
differs from the local one, Upload returns the generic ErrUploadFailed
wrapped with the message "checksum mismatch", not the dedicated
ErrChecksumMismatch error declared (and documented for exactly this case) in
ssh.go; with matching digests Upload returns nil. -/
theorem upload_checksum_mismatch_kind :
    Upload uploadMismatchEnv = some (.typed .uploadFailed "checksum mismatch") ∧
    Upload uploadMismatchEnv ≠ some ErrChecksumMismatch ∧
    Upload { uploadMismatchEnv with remoteSha256 := .ok "aa" } = none := by
  decide

/-- C6, counterexample: with useNTLM set, HTTPS on and a client certificate
loaded, the decorator written last wins, so the constructed client uses the
client-certificate transport and not NTLM. -/
theorem winrm_ntlm_precedence_counterexample :
    transportDecorator ⟨true, true, [1]⟩ = .clientAuthRequest ∧
    transportDecorator ⟨true, true, [1]⟩ ≠ .clientNTLM := by
  decide

/-- C6, amended: the NTLM and client-certificate decorators are mutually
exclusive with client-certificate precedence: HTTPS with a certificate always
selects the client-certificate transport, NTLM is used only when the
client-certificate condition does not hold, and otherwise the default
transport remains. -/
theorem winrm_transport_decorator_precedence (c : WinRMSpec) :
    (c.useHTTPS = true → 0 < c.cert.length → transportDecorator c = .clientAuthRequest) ∧
    (c.useNTLM = true → (c.useHTTPS = false ∨ c.cert.length = 0) →
      transportDecorator c = .clientNTLM) ∧
    (c.useNTLM = false → (c.useHTTPS = false ∨ c.cert.length = 0) →
      transportDecorator c = .defaultTransport) := by
  obtain ⟨n, h, cert⟩ := c
  cases n <;> cases h <;> cases cert <;>
    simp_all [transportDecorator]

/-- C6, witness for the amended theorem: NTLM alone selects the NTLM
transport. -/
theorem winrm_transport_decorator_precedence_witness :
    transportDecorator ⟨true, false, []⟩ = .clientNTLM :=
  (winrm_transport_decorator_precedence ⟨true, false, []⟩).2.1 rfl (Or.inl rfl)

/-- C7, counterexample: when the transport-level connect succeeds and the
OS-version probe fails, Connect returns an error yet the client handle is
kept, so IsConnected stays true. -/
theorem connect_clears_client_counterexample :
    (connConnect connectProbeFailEnv ⟨none, none⟩).2 = some .osError ∧
    connIsConnected (connConnect connectProbeFailEnv ⟨none, none⟩).1 = true := by
  decide

/-- C7, amended: the client handle is cleared exactly on transport-level
connect failure (Connect then returns not-connected and IsConnected is
false); when the transport connect succeeds and the OS-version probe fails,
Connect returns the probe error with the handle still set. -/
theorem connect_clear_on_transport_failure (env : ConnectEnv) (s : ConnState) :
    (env.clientConnectOk = false → (s.client.isSome ∨ env.defaultsOk = true) →
      (connConnect env s).1.client = none ∧
      (connConnect env s).2 = some .notConnected ∧
      connIsConnected (connConnect env s).1 = false) ∧
    (∀ k, env.clientConnectOk = true → s.osVersion = none → env.osProbe = .error k →
      (s.client.isSome ∨ env.defaultsOk = true) →
      (connConnect env s).2 = some k ∧ (connConnect env s).1.client = some true) := by
  obtain ⟨d, cc, probe⟩ := env
  obtain ⟨cl, osv⟩ := s
  constructor
  · intro hcc hsome
    subst hcc
    rcases cl with _ | b
    · rcases hsome with hs | hd
      · simp at hs
      · subst hd
        simp [connConnect, connIsConnected]
    · simp [connConnect, connIsConnected]
  · intro k hcc hosv hprobe hsome
    subst hcc
    subst hosv
    subst hprobe
    rcases cl with _ | b
    · rcases hsome with hs | hd
      · simp at hs
      · subst hd
        simp [connConnect]
    · simp [connConnect]

/-- C7, witness for the amended theorem: a failing transport connect clears
the handle. -/
theorem connect_clear_on_transport_failure_witness :
    (connConnect ⟨true, false, .ok ⟨"linux"⟩⟩ ⟨none, none⟩).1.client = none := by
  have h :=
    (connect_clear_on_transport_failure ⟨true, false, .ok ⟨"linux"⟩⟩ ⟨none, none⟩).1 rfl
      (Or.inr rfl)
  exact h.1

/-- C8, counterexample: WinRM.Exec checks only for an exit code greater than
zero, so a session reporting the negative exit status -1 with clean stderr
returns nil instead of a command-failed error. -/
theorem nonzero_exit_counterexample :
    winrmExec ⟨true, true, -1, false⟩ false = none ∧ (-1 : Int) ≠ 0 := by
  decide

/-- C9, code bug: initGlobalDefaults appends when expandAndValidatePath
FAILS (and then appends the empty string that the failure path returns),
skipping the path that validates successfully: with one valid and one missing
identity file the global set ends up as a single empty string rather than the
valid expanded path. -/
theorem initGlobalDefaults_inverted :
    initGlobalDefaults osEnvW ["~/.ssh/id_ok", "~/.ssh/id_missing"] = [""] ∧
    expandAndValidatePath osEnvW "~/.ssh/id_ok" = ("/home/u/.ssh/id_ok", none) ∧
    expandAndValidatePath osEnvW "~/.ssh/id_missing" = ("", some .invalidPath) := by
  decide

/-- C2: on an SSH exec run that reaches the wait barrier with exit status
zero and at least one stderr line, a known-Windows host fails with
ErrCommandFailed when AllowWinStderr is off, and the call returns nil when
AllowWinStderr is on or the host is not known to be Windows. -/
theorem ssh_exec_windows_stderr_rule (ko iw ge : Bool) (stdin : String) (allow : Bool)
    (hge : ge = true) :
    (ko = true → iw = true → allow = false →
      (sshExec ⟨ko, iw, true, true, true, true, true, true, ge⟩ stdin allow).result =
        some (.typed .commandFailed "data in stderr")) ∧
    ((allow = true ∨ ko = false ∨ iw = false) →
      (sshExec ⟨ko, iw, true, true, true, true, true, true, ge⟩ stdin allow).result = none) := by
  subst hge
  constructor
  · intro h1 h2 h3
    subst h1; subst h2; subst h3
    by_cases hs : stdin = "" <;> simp [sshExec, hs]
  · intro h
    rcases h with h | h | h
    · subst h
      by_cases hs : stdin = "" <;> cases ko <;> cases iw <;> simp [sshExec, hs]
    · subst h
      by_cases hs : stdin = "" <;> cases iw <;> cases allow <;> simp [sshExec, hs]
    · subst h
      by_cases hs : stdin = "" <;> cases ko <;> cases allow <;> simp [sshExec, hs]

/-- C2, witness: a known-Windows host, stderr output, AllowWinStderr off. -/
theorem ssh_exec_windows_stderr_rule_witness :
    (sshExec ⟨true, true, true, true, true, true, true, true, true⟩ "" false).result =
      some (.typed .commandFailed "data in stderr") :=
  (ssh_exec_windows_stderr_rule true true true "" false rfl).1 rfl rfl rfl

/-- C3: on an SSH exec run whose session opens and whose command rewrite
succeeds, a PTY is requested iff the OS is known, is not Windows, and no
stdin payload is supplied, and the request is always xterm at 80 by 40 with
the ECHO mode set to 0. -/
theorem ssh_exec_pty_rule (ko iw p st sw w ge : Bool) (stdin : String) (allow : Bool) :
    (sshExec ⟨ko, iw, true, true, p, st, sw, w, ge⟩ stdin allow).pty =
      if stdin = "" ∧ ko = true ∧ iw = false then some ⟨"xterm", 80, 40, 0⟩ else none := by
  by_cases hs : stdin = "" <;>
    cases ko <;> cases iw <;> cases p <;> cases st <;> cases sw <;> cases w <;>
    simp [sshExec, hs, ptyWidth, ptyHeight, apply_ite, ite_self]

/-- C3, witness: known non-Windows host without stdin gets the 80 by 40
xterm PTY with ECHO disabled. -/
theorem ssh_exec_pty_rule_witness :
    (sshExec ⟨true, false, true, true, true, true, true, true, false⟩ "" false).pty =
      some ⟨"xterm", 80, 40, 0⟩ := by
  have h := ssh_exec_pty_rule true false true true true true false "" false
  simpa using h

/-- C5: the host-key callback selection follows the claimed precedence: a
literal hostKey yields the static callback; otherwise a present but empty
SSH_KNOWN_HOSTS yields insecure-ignore and a non-empty value a known-hosts
callback on that path; otherwise the first expandable UserKnownHostsFile
entry; otherwise the expanded default known-hosts path. -/
theorem hostkey_callback_precedence (e : OSEnv) (c : HostKeyEnv) :
    (c.hostKey ≠ "" → hostkeyCallback e c = some (.ok (.staticKey c.hostKey))) ∧
    (c.hostKey = "" → c.sshKnownHostsEnv = some "" →
      hostkeyCallback e c = some (.ok .insecureIgnore)) ∧
    (∀ p, c.hostKey = "" → c.sshKnownHostsEnv = some p → p ≠ "" →
      hostkeyCallback e c =
        some (.ok (.knownHostsFile p (permissiveMode c.strictHostKeyChecking)))) ∧
    (∀ files p, c.hostKey = "" → c.sshKnownHostsEnv = none →
      shlexSplit (String.intercalate " " c.userKnownHostsFiles) = .ok files →
      firstExpandedPath e files = some (some p) → p ≠ "" →
      hostkeyCallback e c =
        some (.ok (.knownHostsFile p (permissiveMode c.strictHostKeyChecking)))) ∧
    (∀ files d, c.hostKey = "" → c.sshKnownHostsEnv = none →
      shlexSplit (String.intercalate " " c.userKnownHostsFiles) = .ok files →
      firstExpandedPath e files = some none →
      expandPath e DefaultKnownHostsPath = some (.ok d) →
      hostkeyCallback e c =
        some (.ok (.knownHostsFile d (permissiveMode c.strictHostKeyChecking)))) := by
  refine ⟨?_, ?_, ?_, ?_, ?_⟩
  · intro h
    simp [hostkeyCallback, h]
  · intro h henv
    simp [hostkeyCallback, h, henv]
  · intro p h henv hp
    simp [hostkeyCallback, knownhostsCallback, h, henv, hp]
  · intro files p h henv hsplit hfirst hp
    simp [hostkeyCallback, knownhostsCallback, h, henv, hsplit, hfirst, hp]
  · intro files d h henv hsplit hfirst hdef
    simp [hostkeyCallback, hostkeyDefaultBranch, knownhostsCallback, h, henv, hsplit, hfirst,
      hdef]

/-- C5, witness: a literal host key selects the static callback. -/
theorem hostkey_callback_precedence_witness :
    hostkeyCallback osEnvW ⟨"k", [], none, []⟩ = some (.ok (.staticKey "k")) :=
  (hostkey_callback_precedence osEnvW ⟨"k", [], none, []⟩).1 (by decide)

/-- C8, amended: WinRM.Exec fails with command-failed for positive exit
codes but passes negative ones; the Waiter from WinRM.ExecStreams fails with
command-failed for any non-zero exit code; SSH.Exec returns a plain wrapped
wait error on a failing wait, which Connection.Exec surfaces as
command-failed. -/
theorem nonzero_exit_rules :
    (∀ ec : Int, ∀ ge allow : Bool, 0 < ec →
      winrmExec ⟨true, true, ec, ge⟩ allow = some (.typed .commandFailed "non-zero exit code")) ∧
    (∀ ec : Int, ec < 0 → winrmExec ⟨true, true, ec, false⟩ false = none) ∧
    (∀ ec : Int, ec ≠ 0 → commandWait ec = some (.typed .commandFailed "exit code")) ∧
    (∀ (ko iw ge : Bool) (stdin : String) (allow : Bool),
      (sshExec ⟨ko, iw, true, true, true, true, true, false, ge⟩ stdin allow).result =
        some (.generic "ssh session wait") ∧
      connExec true
          ((sshExec ⟨ko, iw, true, true, true, true, true, false, ge⟩ stdin allow).result) =
        some (.typed .commandFailed "client exec")) := by
  refine ⟨?_, ?_, ?_, ?_⟩
  · intro ec ge allow h
    simp [winrmExec, h]
  · intro ec h
    have h2 : ¬ec > 0 := by omega
    simp [winrmExec, h2]
  · intro ec h
    simp [commandWait, h]
  · intro ko iw ge stdin allow
    have hres : (sshExec ⟨ko, iw, true, true, true, true, true, false, ge⟩ stdin allow).result =
        some (.generic "ssh session wait") := by
      by_cases hs : stdin = "" <;> cases ko <;> cases iw <;> simp [sshExec, hs]
    exact ⟨hres, by rw [hres]; simp [connExec]⟩

/-- C8, witness for the amended theorem: a positive WinRM exit code fails. -/
theorem nonzero_exit_rules_witness :
    winrmExec ⟨true, true, 2, false⟩ false = some (.typed .commandFailed "non-zero exit code") :=
  nonzero_exit_rules.1 2 false false (by decide)

/-- C10: expandPath diverges on the empty string (it inspects the first
character unconditionally) and is total on every non-empty input; the empty
guard lives in expandAndValidatePath, which rejects the empty path before
calling expandPath; and hostkeyCallback, which calls expandPath directly,
diverges when a UserKnownHostsFile entry lexes to an empty token. -/
theorem expandPath_partiality :
    (∀ e : OSEnv, expandPath e "" = none) ∧
    (∀ (e : OSEnv) (p : String), p ≠ "" → (expandPath e p).isSome = true) ∧
    (∀ e : OSEnv, expandAndValidatePath e "" = ("", some .invalidPath)) ∧
    hostkeyCallback osEnvW emptyTokenHostKeyEnv = none := by
  refine ⟨?_, ?_, ?_, by decide⟩
  · intro e
    rfl
  · intro e p hp
    obtain ⟨l⟩ := p
    cases l with
    | nil => exact absurd rfl hp
    | cons c cs =>
      show (expandPath e ⟨c :: cs⟩).isSome = true
      by_cases h1 : c = '~'
      · subst h1
        cases cs with
        | nil => simp [expandPath]
        | cons c2 cs2 =>
          by_cases h2 : c2 = '/'
          · cases hh : homeDir e <;> simp [expandPath, h2, hh]
          · simp [expandPath, h2]
      · simp [expandPath, h1]
  · intro e
    rfl

/-- C10, witness: expandPath is defined on the non-empty input tilde. -/
theorem expandPath_partiality_witness :
    (expandPath osEnvW "~").isSome = true :=
  expandPath_partiality.2.1 osEnvW "~" (by decide)

end Rig
